import Mathlib

/-!
Shallow embedding of the pagination engine and enrichment orchestrator of a
Zendesk SDK (`zendesk_sdk/pagination.py`, `zendesk_sdk/clients/tickets.py`,
`zendesk_sdk/clients/search.py`), together with proofs settling the spec's
claims about them.

Python dictionaries read by key are embedded as structures of `Option` fields
(a `none` field models an absent key); request-parameter dictionaries are
embedded as association lists with last-binding-wins lookup; Python `set`s of
ints are embedded as first-occurrence-ordered duplicate-free lists (Python's
set enumeration order is unspecified; no claim depends on it); user maps keyed
by id are embedded as functions `Int → Option UserRec`.  Async generators and
their consumers are fused into explicit fuel-bounded loops that also record
the trace of issued transport requests.
-/

namespace ZendeskSDK

/-- Python truthiness of an optional string (`None` and `""` are falsy). -/
def truthyS : Option String → Bool
  | none => false
  | some s => s ≠ ""

/-- Python truthiness of an optional int (`None` and `0` are falsy). -/
def truthyI : Option Int → Bool
  | none => false
  | some i => i ≠ 0

/-- Python truthiness of an optional list (`None` and `[]` are falsy). -/
def truthyL : Option (List Int) → Bool
  | none => false
  | some l => l ≠ []

/-- A request-parameter value (string or int), as placed in the params dict. -/
inductive PVal where
  | str (s : String)
  | int (i : Int)
  deriving DecidableEq, Repr

/-- A request-parameter dictionary: association list, later bindings win. -/
abbrev Params := List (String × PVal)

/-- Key lookup in a params dict: the latest binding for the key, if any. -/
def pget (ps : Params) (k : String) : Option PVal :=
  (ps.reverse.find? (fun p => p.1 = k)).map Prod.snd

/-- `dict.update`: bindings of `upd` override those of `base`. -/
def dictUpdate (base upd : Params) : Params := base ++ upd

/-- Modelled from the spec: `models/user.py` is not in the source tree; the
spec describes users as related entities keyed by an integer id, and the
orchestrator code reads only `user.id`. -/
structure UserRec where
  id : Option Int := none
  name : String := ""
  deriving DecidableEq, Repr

/-- Modelled from the spec: `models/comment.py` is not in the source tree; the
orchestrator code reads only `comment.author_id`. -/
structure Comment where
  author_id : Option Int := none
  body : String := ""
  deriving DecidableEq, Repr

/-- Modelled from the spec: `models/ticket.py` is not in the source tree; the
fields are those the enrichment orchestrator reads (requester, assignee,
submitter, collaborators, followers — spec §4.2). -/
structure Ticket where
  id : Option Int := none
  requester_id : Option Int := none
  assignee_id : Option Int := none
  submitter_id : Option Int := none
  collaborator_ids : Option (List Int) := none
  follower_ids : Option (List Int) := none
  deriving DecidableEq, Repr

/-- A raw search-result dict: the `result_type` discriminator plus the ticket
payload that `Ticket(**r)` parses out of it. -/
structure RawResult where
  result_type : String := ""
  ticket : Ticket := {}
  deriving DecidableEq, Repr

/-- A decoded response body, as a structure of the keys the SDK reads
(`response.get(k)` is field access; `none` models an absent key). -/
structure Response where
  page : Option Int := none
  per_page : Option Int := none
  count : Option Int := none
  next_page : Option String := none
  previous_page : Option String := none
  has_more : Option Bool := none
  next_cursor : Option String := none
  after_cursor : Option String := none
  links_next : Option String := none
  meta_after_cursor : Option String := none
  meta_has_more : Option Bool := none
  results : List RawResult := []
  items : List RawResult := []
  ticket : Option Ticket := none
  comments : List Comment := []
  users : List UserRec := []
  deriving Repr

/-- `PaginationInfo.__init__` state (pagination.py lines 17–31). -/
structure PaginationInfo where
  page : Option Int := none
  per_page : Option Int := none
  count : Option Int := none
  next_page : Option String := none
  previous_page : Option String := none
  has_more : Option Bool := none
  deriving DecidableEq, Repr

/-- `PaginationInfo.from_response` (pagination.py lines 33–43). -/
def PaginationInfo.from_response (r : Response) : PaginationInfo :=
  { page := r.page
    per_page := r.per_page
    count := r.count
    next_page := r.next_page
    previous_page := r.previous_page
    has_more := r.has_more }

/-- The state of a paginator instance: the base `Paginator` fields
(pagination.py lines 54–62) together with the `CursorPaginator` extras
(lines 194–199) and the `SearchExportPaginator` extras (lines 262–266);
variants that lack a field never read or write it. -/
structure PagState where
  path : String := ""
  params : Params := []
  per_page : Int := 100
  current_page : Int := 1
  pagination_info : Option PaginationInfo := none
  next_cursor : Option String := none
  has_started : Bool := false
  query : String := ""
  filter_type : String := ""
  next_url : Option String := none

namespace OffsetPaginator

/-- `OffsetPaginator._get_page_params` (pagination.py lines 166–168). -/
def get_page_params (s : PagState) : Params :=
  [("page", PVal.int s.current_page), ("per_page", PVal.int s.per_page)]

/-- `OffsetPaginator._update_pagination_state` (pagination.py lines 161–164). -/
def update_pagination_state (s : PagState) (r : Response) : PagState :=
  { s with pagination_info := some (PaginationInfo.from_response r) }

/-- `OffsetPaginator._has_more_pages` (pagination.py lines 170–184).
Priority: explicit `has_more` flag, then page-count arithmetic from `count`,
then the fallback `return True` (the source comment reads "assume more pages
if we got a full page" but the code returns `True` unconditionally). -/
def has_more_pages (s : PagState) : Bool :=
  match s.pagination_info with
  | none => false
  | some info =>
    match info.has_more with
    | some b => b
    | none =>
      match info.count with
      | some c => s.current_page < Int.fdiv (c + s.per_page - 1) s.per_page
      | none => true

/-- `OffsetPaginator._advance_to_next_page` (pagination.py lines 186–188). -/
def advance_to_next_page (s : PagState) : PagState :=
  { s with current_page := s.current_page + 1 }

end OffsetPaginator

namespace CursorPaginator

/-- `CursorPaginator._get_page_params` (pagination.py lines 226–233). -/
def get_page_params (s : PagState) : Params :=
  let ps : Params := [("per_page", PVal.int s.per_page)]
  if truthyS s.next_cursor ∧ s.has_started then
    ps ++ [("cursor", PVal.str (s.next_cursor.getD ""))]
  else ps

/-- `CursorPaginator._update_pagination_state` (pagination.py lines 209–224):
`next_cursor or after_cursor` (Python `or`), falling back to `links["next"]`
when that is falsy; marks the paginator as started. -/
def update_pagination_state (s : PagState) (r : Response) : PagState :=
  let nc0 := if truthyS r.next_cursor then r.next_cursor else r.after_cursor
  let nc :=
    if truthyS nc0 then nc0
    else
      match r.links_next with
      | some l => some l
      | none => nc0
  { s with
      pagination_info := some (PaginationInfo.from_response r)
      next_cursor := nc
      has_started := true }

/-- `CursorPaginator._has_more_pages` (pagination.py lines 235–244). -/
def has_more_pages (s : PagState) : Bool :=
  if ¬ s.has_started then true
  else
    match s.pagination_info with
    | some info =>
      match info.has_more with
      | some b => b
      | none => s.next_cursor.isSome
    | none => s.next_cursor.isSome

/-- `CursorPaginator._advance_to_next_page` (pagination.py lines 246–248):
a no-op, the cursor was adopted in `_update_pagination_state`. -/
def advance_to_next_page (s : PagState) : PagState := s

end CursorPaginator

namespace SearchExportPaginator

/-- `SearchExportPaginator._get_page_params` (pagination.py lines 289–300). -/
def get_page_params (s : PagState) : Params :=
  let ps : Params :=
    [("query", PVal.str s.query),
     ("filter[type]", PVal.str s.filter_type),
     ("page[size]", PVal.int s.per_page)]
  if truthyS s.next_cursor ∧ s.has_started then
    ps ++ [("page[after]", PVal.str (s.next_cursor.getD ""))]
  else ps

/-- `SearchExportPaginator._update_pagination_state`
(pagination.py lines 271–287): reads `links.next` and `meta.after_cursor`,
and records `meta.get("has_more", False)` in the pagination info. -/
def update_pagination_state (s : PagState) (r : Response) : PagState :=
  { s with
      next_url := r.links_next
      next_cursor := r.meta_after_cursor
      pagination_info := some
        { has_more := some (r.meta_has_more.getD false)
          next_page := r.links_next }
      has_started := true }

/-- `SearchExportPaginator._has_more_pages` (pagination.py lines 302–310). -/
def has_more_pages (s : PagState) : Bool :=
  if ¬ s.has_started then true
  else
    match s.pagination_info with
    | some info =>
      match info.has_more with
      | some b => b
      | none => s.next_cursor.isSome
    | none => s.next_cursor.isSome

/-- `SearchExportPaginator.__init__` (pagination.py lines 262–266): base path
`search/export.json`, empty base params, `per_page := page_size`. -/
def init (query filter_type : String) (page_size : Int) : PagState :=
  { path := "search/export.json"
    params := []
    per_page := page_size
    query := query
    filter_type := filter_type }

end SearchExportPaginator

/-- Modelled from the spec: `exceptions.py` is not in the source tree; the
spec (§1, §6) describes a typed HTTP error carrying a numeric status code and
a message.  `toText` models Python `str(e)`. -/
structure ZendeskHTTPException where
  status_code : Int
  message : String
  deriving DecidableEq, Repr

/-- Modelled from the spec: Python `str(e)` of the HTTP error, used when the
pagination error wraps it. -/
def ZendeskHTTPException.toText (e : ZendeskHTTPException) : String := e.message

/-- Modelled from the spec: `exceptions.py` is not in the source tree; the
spec (§7) describes a pagination error wrapping a transport error with
page/cursor context; `pagination.py` constructs it with a message and a
context dict with keys `page` and `per_page`. -/
structure ZendeskPaginationException where
  message : String
  context : List (String × Int)
  deriving DecidableEq, Repr

/-- The outcome of one transport `get` during pagination: a decoded body, a
typed HTTP error, or some other exception. -/
inductive FetchResult where
  | ok (r : Response)
  | httpError (e : ZendeskHTTPException)
  | err (msg : String)

/-- A transport oracle: the result of the `k`-th transport call of a run,
as a function of the request parameters sent. -/
abbrev Fetch := Nat → Params → FetchResult

/-- The abstract-method record of the base `Paginator` class: the five
variant-specific operations (pagination.py lines 64–99, 137–145). -/
structure PagMethods where
  get_page_params : PagState → Params
  extract_items : Response → List RawResult
  update_pagination_state : PagState → Response → PagState
  has_more_pages : PagState → Bool
  advance_to_next_page : PagState → PagState

/-- `Paginator._build_page_params` (pagination.py lines 90–94): base params
updated (overridden) by the page-specific params. -/
def build_page_params (m : PagMethods) (s : PagState) : Params :=
  dictUpdate s.params (m.get_page_params s)

/-- The generic `OffsetPaginator` method record (extracts `items`). -/
def offsetMethods : PagMethods :=
  { get_page_params := OffsetPaginator.get_page_params
    extract_items := fun r => r.items
    update_pagination_state := OffsetPaginator.update_pagination_state
    has_more_pages := OffsetPaginator.has_more_pages
    advance_to_next_page := OffsetPaginator.advance_to_next_page }

/-- The `SearchPaginator` method record (pagination.py lines 350–354): an
`OffsetPaginator` whose `_extract_items` returns `results`. -/
def searchMethods : PagMethods :=
  { offsetMethods with extract_items := fun r => r.results }

/-- The generic `CursorPaginator` method record (extracts `items`). -/
def cursorMethods : PagMethods :=
  { get_page_params := CursorPaginator.get_page_params
    extract_items := fun r => r.items
    update_pagination_state := CursorPaginator.update_pagination_state
    has_more_pages := CursorPaginator.has_more_pages
    advance_to_next_page := CursorPaginator.advance_to_next_page }

/-- The `SearchExportPaginator` method record (extracts `results`). -/
def exportMethods : PagMethods :=
  { get_page_params := SearchExportPaginator.get_page_params
    extract_items := fun r => r.results
    update_pagination_state := SearchExportPaginator.update_pagination_state
    has_more_pages := SearchExportPaginator.has_more_pages
    advance_to_next_page := CursorPaginator.advance_to_next_page }

/-- The result of `Paginator.get_page`: the updated state and the extracted
items, or the propagated transport exception (state unchanged apart from an
explicit page-number assignment). -/
inductive GetPageResult where
  | ok (s : PagState) (items : List RawResult)
  | httpError (s : PagState) (e : ZendeskHTTPException)
  | err (s : PagState) (msg : String)

/-- `Paginator.get_page` (pagination.py lines 79–88): an explicit page number
overwrites `_current_page`; then one transport call with the built params,
state update from the response, and item extraction. -/
def get_page (m : PagMethods) (fetch : Fetch) (k : Nat) (s : PagState)
    (page : Option Int) : GetPageResult :=
  let s := match page with
    | some p => { s with current_page := p }
    | none => s
  match fetch k (build_page_params m s) with
  | .ok r => .ok (m.update_pagination_state s r) (m.extract_items r)
  | .httpError e => .httpError s e
  | .err msg => .err s msg

/-- How an iteration run ended: normal (or graceful 422) termination, a
raised pagination exception, or out of fuel (the loop had not terminated). -/
inductive IterEnd where
  | done
  | raised (e : ZendeskPaginationException)
  | fuelOut
  deriving DecidableEq, Repr

/-- The `ZendeskPaginationException` raised by `Paginator.__aiter__`
(pagination.py lines 129–135): wraps `str(e)` and records the current page
and per-page context. -/
def pagExc (msg : String) (s : PagState) : ZendeskPaginationException :=
  { message := "Error during pagination: " ++ msg
    context := [("page", s.current_page), ("per_page", s.per_page)] }

/-- The `self._current_page = 1` reset at the top of `Paginator.__aiter__`
(pagination.py line 110); no other field is touched. -/
def aiterReset (s : PagState) : PagState := { s with current_page := 1 }

/-- The loop body of `Paginator.__aiter__` (pagination.py lines 112–135),
fused with a consumer that consumes every item: yields accumulate in order;
a 422 HTTP error breaks gracefully; any other exception raises a
`ZendeskPaginationException` with page/per-page context.  Also records the
trace of issued request params.  Fuel bounds the number of loop iterations;
running out is reported as `.fuelOut`. -/
def aiterLoop (m : PagMethods) (fetch : Fetch) :
    Nat → Nat → PagState → List RawResult → List Params →
    List RawResult × List Params × IterEnd
  | 0, _, _, acc, log => (acc, log, .fuelOut)
  | fuel+1, k, s, acc, log =>
    let log := log ++ [build_page_params m s]
    match get_page m fetch k s none with
    | .ok s' items =>
      if ¬ m.has_more_pages s' then (acc ++ items, log, .done)
      else aiterLoop m fetch fuel (k+1) (m.advance_to_next_page s') (acc ++ items) log
    | .httpError s' e =>
      if e.status_code = 422 then (acc, log, .done)
      else (acc, log, .raised (pagExc e.toText s'))
    | .err s' msg => (acc, log, .raised (pagExc msg s'))

/-- `Paginator.__aiter__` consumed to exhaustion: reset `_current_page` to 1,
then loop. -/
def aiterRun (m : PagMethods) (fetch : Fetch) (fuel : Nat) (s : PagState) :
    List RawResult × List Params × IterEnd :=
  aiterLoop m fetch fuel 0 (aiterReset s) [] []

/-- `TicketsClient._paginate_enriched` (tickets.py lines 447–460), fused with
a consumer that consumes every page: `get_page()`, yield the page if
non-empty, stop when `_has_more_pages()` is false, advance; `except
Exception: break` turns every exception into a graceful stop. -/
def paginateEnrichedLoop (m : PagMethods) (fetch : Fetch) :
    Nat → Nat → PagState → List (List RawResult) →
    List (List RawResult) × IterEnd
  | 0, _, _, acc => (acc, .fuelOut)
  | fuel+1, k, s, acc =>
    match get_page m fetch k s none with
    | .ok s' items =>
      let acc := if items ≠ [] then acc ++ [items] else acc
      if ¬ m.has_more_pages s' then (acc, .done)
      else paginateEnrichedLoop m fetch fuel (k+1) (m.advance_to_next_page s') acc
    | .httpError _ _ => (acc, .done)
    | .err _ _ => (acc, .done)

/-- The inner consumer step of `SearchClient.tickets` (search.py lines
147–152) over one page of items: keep items whose `result_type` is
`"ticket"`, count them, and stop the whole iteration (`return`) once
`limit and count >= limit` holds. -/
inductive ConsumeRes where
  | more (acc : List Ticket) (cnt : Int)
  | stop (acc : List Ticket)

/-- One page's worth of the `async for item in paginator` body of
`SearchClient.tickets` (search.py lines 147–152). -/
def consume_items (limit : Option Int) :
    List RawResult → Int → List Ticket → ConsumeRes
  | [], cnt, acc => .more acc cnt
  | it :: rest, cnt, acc =>
    if it.result_type = "ticket" then
      let acc := acc ++ [it.ticket]
      let cnt := cnt + 1
      if truthyI limit ∧ limit.getD 0 ≤ cnt then .stop acc
      else consume_items limit rest cnt acc
    else consume_items limit rest cnt acc

/-- `SearchClient.tickets` (search.py lines 119–152) fused with the
`Paginator.__aiter__` generator it consumes: because the generator is lazy,
a page is fetched only when the consumer asks for an item beyond the items
already yielded, and the consumer's early `return` closes the generator
before any further fetch.  The request-params trace `log` records one entry
per page fetch issued. -/
def searchTicketsLoop (fetch : Fetch) (limit : Option Int) :
    Nat → Nat → PagState → Int → List Ticket → List Params →
    List Ticket × List Params × IterEnd
  | 0, _, _, _, acc, log => (acc, log, .fuelOut)
  | fuel+1, k, s, cnt, acc, log =>
    let log := log ++ [build_page_params searchMethods s]
    match get_page searchMethods fetch k s none with
    | .ok s' items =>
      match consume_items limit items cnt acc with
      | .stop acc => (acc, log, .done)
      | .more acc cnt =>
        if ¬ searchMethods.has_more_pages s' then (acc, log, .done)
        else searchTicketsLoop fetch limit fuel (k+1)
          (searchMethods.advance_to_next_page s') cnt acc log
    | .httpError s' e =>
      if e.status_code = 422 then (acc, log, .done)
      else (acc, log, .raised (pagExc e.toText s'))
    | .err s' msg => (acc, log, .raised (pagExc msg s'))

/-- `ZendeskPaginator.create_search_paginator` (pagination.py lines 346–354):
path `search.json`, base params the query, offset pagination. -/
def mkSearchPaginator (query : String) (per_page : Int) : PagState :=
  { path := "search.json"
    params := [("query", PVal.str query)]
    per_page := per_page }

/-- `SearchClient.tickets` from a fresh search paginator (count starts at 0,
`__aiter__` resets `_current_page` to 1). -/
def searchTicketsRun (fetch : Fetch) (limit : Option Int) (fuel : Nat)
    (query : String) (per_page : Int) :
    List Ticket × List Params × IterEnd :=
  searchTicketsLoop fetch limit fuel 0 (aiterReset (mkSearchPaginator query per_page)) 0 [] []

/-! ### Enrichment orchestrator (`clients/tickets.py`) -/

/-- A user map keyed by integer id, as the function it realizes; dict
insertion is pointwise override. -/
def UserMap := Int → Option UserRec

/-- The empty dict. -/
def UserMap.empty : UserMap := fun _ => none

/-- Dict assignment `d[k] = v`. -/
def UserMap.insert (m : UserMap) (k : Int) (v : UserRec) : UserMap :=
  fun x => if x = k then some v else m x

/-- Python `{**a, **b}`: a key present in `b` wins, else `a`'s entry. -/
def UserMap.union (a b : UserMap) : UserMap :=
  fun k =>
    match b k with
    | some v => some v
    | none => a k

/-- `TicketsClient._extract_users_from_response` (tickets.py lines 298–305):
insert each sideloaded user whose `id` is not `None`, later entries
overwriting earlier ones. -/
def extract_users_from_response (users : List UserRec) : UserMap :=
  users.foldl
    (fun m u =>
      match u.id with
      | some i => m.insert i u
      | none => m)
    UserMap.empty

/-- Python `set.add`, with the set embedded as a first-occurrence-ordered
duplicate-free list. -/
def sadd (s : List Int) (x : Int) : List Int := if x ∈ s then s else s ++ [x]

/-- Python `set.update` with an iterable of ints. -/
def supdate (s : List Int) (xs : List Int) : List Int := xs.foldl sadd s

/-- One `if ticket.<scalar-fk>: user_ids.add(...)` step: the conditional
under Python truthiness (0 and `None` are skipped). -/
def addIfTruthyI (o : Option Int) (s : List Int) : List Int :=
  if truthyI o then sadd s (o.getD 0) else s

/-- One `if ticket.<id-list>: user_ids.update(...)` step: the conditional
under Python truthiness (`None` and `[]` are skipped). -/
def addIfTruthyL (o : Option (List Int)) (s : List Int) : List Int :=
  if truthyL o then supdate s (o.getD []) else s

/-- The per-ticket id-collection body shared by
`TicketsClient._collect_user_ids_from_tickets` (tickets.py lines 310–320)
and the `ticket_user_ids` set of `_build_enriched_tickets` (lines 365–375):
requester, assignee, submitter, then the collaborator and follower lists,
each guarded by Python truthiness. -/
def collectTicketIds (s : List Int) (t : Ticket) : List Int :=
  addIfTruthyL t.follower_ids
    (addIfTruthyL t.collaborator_ids
      (addIfTruthyI t.submitter_id
        (addIfTruthyI t.assignee_id
          (addIfTruthyI t.requester_id s))))

/-- The claim-side reading of "a user id referenced by a ticket": requester,
assignee or submitter (a 0 id is falsy in the source's guard and hence never
collected), or membership in the collaborator or follower lists. -/
def refersTo (t : Ticket) (x : Int) : Prop :=
  (t.requester_id = some x ∧ x ≠ 0) ∨
  (t.assignee_id = some x ∧ x ≠ 0) ∨
  (t.submitter_id = some x ∧ x ≠ 0) ∨
  (∃ l, t.collaborator_ids = some l ∧ x ∈ l) ∨
  (∃ l, t.follower_ids = some l ∧ x ∈ l)

/-- `TicketsClient._collect_user_ids_from_tickets` (tickets.py lines
307–321): one set across all tickets, returned as a list. -/
def collect_user_ids_from_tickets (tickets : List Ticket) : List Int :=
  tickets.foldl collectTicketIds []

/-- Python `list(set(xs))`, embedded as first-occurrence dedup (set
enumeration order is unspecified; no claim depends on which order). -/
def pySetList (xs : List Int) : List Int := xs.foldl sadd []

/-- Observed behavior of `TicketsClient._fetch_users_batch`: how many
`users/show_many` calls were made and with which ids. -/
structure UsersBatchResult where
  calls : Nat
  requested : List Int
  users : UserMap

/-- `TicketsClient._fetch_users_batch` (tickets.py lines 323–332) over a
user-database oracle `db`: empty input short-circuits with no call; else
`unique_ids = list(set(user_ids))[:100]`, one `GET users/show_many.json`
whose response sideloads the found users, extracted into a map. -/
def fetch_users_batch (db : Int → Option UserRec) (user_ids : List Int) :
    UsersBatchResult :=
  if user_ids = [] then { calls := 0, requested := [], users := UserMap.empty }
  else
    let unique_ids := (pySetList user_ids).take 100
    let resp_users := unique_ids.filterMap db
    { calls := 1, requested := unique_ids
      users := extract_users_from_response resp_users }

/-- `TicketsClient._fetch_comments_with_users` (tickets.py lines 334–339)
over a comments-endpoint oracle `co` mapping a ticket id to the decoded
response of `GET tickets/{id}/comments.json?include=users`. -/
def fetch_comments_with_users (co : Int → Response) (ticket_id : Int) :
    List Comment × UserMap :=
  let r := co ticket_id
  (r.comments, extract_users_from_response r.users)

/-- The `EnrichedTicket` composite (models/enriched_ticket.py). -/
structure EnrichedTicket where
  ticket : Ticket
  comments : List Comment
  users : UserMap

/-- A transport call observed during single-entity enrichment. -/
structure HttpCall where
  path : String
  params : Params
  deriving DecidableEq, Repr

/-- One logged transport `get`. -/
def http_get (http : String → Params → Response) (log : List HttpCall)
    (path : String) (params : Params) : Response × List HttpCall :=
  (http path params, log ++ [⟨path, params⟩])

/-- `TicketsClient._build_enriched_ticket` (tickets.py lines 341–347): a
ticket without id raises; else fetch its comments with sideloaded users and
union the maps (`{**ticket_users, **comment_users}`). -/
def build_enriched_ticket (http : String → Params → Response)
    (log : List HttpCall) (t : Ticket) (ticket_users : UserMap) :
    Except String (EnrichedTicket × List HttpCall) :=
  match t.id with
  | none => .error "Ticket must have an ID to fetch full data"
  | some tid =>
    let (r, log) := http_get http log
      ("tickets/" ++ toString tid ++ "/comments.json")
      [("include", PVal.str "users")]
    let comments := r.comments
    let comment_users := extract_users_from_response r.users
    .ok ({ ticket := t, comments := comments
           users := ticket_users.union comment_users }, log)

/-- `TicketsClient.get_enriched` (tickets.py lines 383–395): one GET of the
ticket with sideloaded users, then `_build_enriched_ticket`.  The absent
`ticket` key would raise a `KeyError` in `response["ticket"]`. -/
def get_enriched (http : String → Params → Response) (ticket_id : Int) :
    Except String (EnrichedTicket × List HttpCall) :=
  let (r1, log) := http_get http []
    ("tickets/" ++ toString ticket_id ++ ".json")
    [("include", PVal.str "users")]
  match r1.ticket with
  | none => .error "KeyError: ticket"
  | some t =>
    build_enriched_ticket http log t (extract_users_from_response r1.users)

/-- One completion event of the fan-out/fan-in join: task `i` finishes and
writes its result into its own input-index slot. -/
def gatherStep {α β : Type} (tasks : List α) (run : α → β)
    (slots : List (Option β)) (i : Nat) : List (Option β) :=
  match tasks.get? i with
  | some t => slots.set i (some (run t))
  | none => slots

/-- A fan-out/fan-in join under an explicit completion order: every task
writes its result into its own input-index slot when it completes; `order`
is the sequence of task indices in completion order.  `asyncio.gather`'s
result is the final slot vector read positionally. -/
def gatherPerm {α β : Type} (tasks : List α) (run : α → β)
    (order : List Nat) : List (Option β) :=
  order.foldl (gatherStep tasks run) (List.replicate tasks.length none)

/-- The filtered user map `this_ticket_users` of `_build_enriched_tickets`
(tickets.py line 377): the batch map restricted to the ids the ticket
references. -/
def scoped_users (ticket_users : UserMap) (ids : List Int) : UserMap :=
  fun k => if k ∈ ids then ticket_users k else none

/-- The per-ticket assembly of `_build_enriched_tickets` (tickets.py lines
364–379) once its comment fetch has completed. -/
def assembleOne (ticket_users : UserMap) (t : Ticket)
    (res : List Comment × UserMap) : EnrichedTicket :=
  let this_ticket_users := scoped_users ticket_users (collectTicketIds [] t)
  { ticket := t, comments := res.1
    users := this_ticket_users.union res.2 }

/-- `TicketsClient._build_enriched_tickets` (tickets.py lines 349–381):
skip tickets without id, fetch all comment threads concurrently
(`asyncio.gather` returns results positionally in task order — the
completion-order independence of that join is proven on `gatherPerm`
below), then zip and assemble. -/
def build_enriched_tickets (co : Int → Response) (tickets : List Ticket)
    (ticket_users : UserMap) : List EnrichedTicket :=
  if tickets = [] then []
  else
    let valid := tickets.filter (fun t => t.id.isSome)
    if valid = [] then []
    else
      let results := valid.map (fun t => fetch_comments_with_users co (t.id.getD 0))
      (valid.zip results).map (fun p => assembleOne ticket_users p.1 p.2)

/-- Whether a `get_page` call returned normally. -/
def GetPageResult.isOk : GetPageResult → Bool
  | .ok _ _ => true
  | _ => false

/-! ### Concrete scenario fixtures used by witnesses and counterexamples -/

/-- A transport that always fails with the search deep-pagination 422. -/
def fetch422 : Fetch := fun _ _ => .httpError ⟨422, "unprocessable entity"⟩

/-- A transport that always fails with a 404. -/
def fetch404 : Fetch := fun _ _ => .httpError ⟨404, "Not Found"⟩

/-- A search paginator mid-iteration on page 11 (per-page 100). -/
def statePage11 : PagState := { mkSearchPaginator "q" 100 with current_page := 11 }

/-- A search paginator mid-iteration on page 3 (per-page 100). -/
def statePage3 : PagState := { mkSearchPaginator "q" 100 with current_page := 3 }

/-- A response carrying no pagination metadata and no items at all. -/
def emptyResponse : Response := {}

/-- A transport that always answers with the bare empty response. -/
def emptyFetch : Fetch := fun _ _ => .ok emptyResponse

/-- A started cursor paginator that has a saved next-cursor token. -/
def cursorStateAbc : PagState :=
  { path := "incremental/tickets.json", params := [], per_page := 50
    next_cursor := some "abc", has_started := true }

/-- A transport that always succeeds with one untyped item. -/
def okItemFetch : Fetch := fun _ _ => .ok { items := [{ result_type := "x" }] }

/-- An export response: `meta.has_more=true` with an `after_cursor` token. -/
def exportRespTok : Response :=
  { meta_after_cursor := some "tok", meta_has_more := some true
    next_cursor := some "WRONG" }

/-- A started export paginator holding a saved `after_cursor`. -/
def exportStateAbc : PagState :=
  { SearchExportPaginator.init "status:open" "ticket" 100 with
      next_cursor := some "abc", has_started := true }

/-- A page of ten ticket-typed search results. -/
def tenTicketsResponse : Response :=
  { results := (List.range 10).map
      (fun n => { result_type := "ticket", ticket := { id := some ((n : Int) + 1) } })
    count := some 1000 }

/-- A transport that always serves the ten-ticket page. -/
def tenTicketsFetch : Fetch := fun _ _ => .ok tenTicketsResponse

/-- Requester of the C7 scenario ticket, as sideloaded with the ticket. -/
def userTen : UserRec := { id := some 10, name := "requester-from-ticket" }

/-- The same user id as sideloaded with the comments (fresher data). -/
def userTenFresh : UserRec := { id := some 10, name := "requester-from-comments" }

/-- A comment author only present in the comments sideload. -/
def userEleven : UserRec := { id := some 11, name := "author" }

/-- The C7 scenario ticket. -/
def ticketSeven : Ticket := { id := some 7, requester_id := some 10 }

/-- An oracle for the two GETs of `get_enriched(7)`: the ticket endpoint
sideloads `userTen`; the comments endpoint sideloads `userTenFresh` and
`userEleven`. -/
def httpSeven : String → Params → Response := fun path _ =>
  if path = "tickets/7.json" then
    { ticket := some ticketSeven, users := [userTen] }
  else if path = "tickets/7/comments.json" then
    { comments := [{ author_id := some 11, body := "hi" }]
      users := [userTenFresh, userEleven] }
  else {}

/-- A ticket referencing 150 distinct follower ids (1..150). -/
def ticket150 : Ticket :=
  { id := some 1, follower_ids := some ((List.range 150).map (fun n => (n : Int) + 1)) }

/-- A user database holding every id. -/
def dbAll : Int → Option UserRec := fun i => some { id := some i, name := "u" }

/-- Three tickets, the middle one lacking an id (to be skipped). -/
def ticketsT123 : List Ticket :=
  [{ id := some 1, requester_id := some 10 },
   { id := none, requester_id := some 11 },
   { id := some 3, requester_id := some 12 }]

/-- A comments-endpoint oracle: ticket `i`'s thread has one comment whose
author id is `100 + i`. -/
def coSimple : Int → Response := fun i =>
  { comments := [{ author_id := some (100 + i), body := "c" }]
    users := [{ id := some (100 + i), name := "author" }] }

/-! ### Helper lemmas -/

theorem pget_append (a b : Params) (k : String) :
    pget (a ++ b) k =
      match pget b k with
      | some v => some v
      | none => pget a k := by
  unfold pget
  rw [List.reverse_append, List.find?_append]
  cases hfb : b.reverse.find? (fun p => p.1 = k) <;>
    simp [Option.orElse, hfb]

/-! ### Claim theorems -/

/-- C5: for every `SearchExportPaginator` traversal, the next-position token
is read from the response's `meta.after_cursor` (not `next_cursor`); every
request's parameters include `query`, `filter[type]` and `page[size]` (and
never `cursor`); and a request issued after the first with a saved cursor
sends the token as `page[after]`. -/
theorem C5_export_wire_format (s s' : PagState) (r : Response) (c : String)
    (hps : s.params = []) (hps' : s'.params = [])
    (hc : s'.next_cursor = some c) (hne : c ≠ "") (hst : s'.has_started = true) :
    (SearchExportPaginator.update_pagination_state s r).next_cursor = r.meta_after_cursor ∧
    pget (build_page_params exportMethods s) "query" = some (PVal.str s.query) ∧
    pget (build_page_params exportMethods s) "filter[type]" = some (PVal.str s.filter_type) ∧
    pget (build_page_params exportMethods s) "page[size]" = some (PVal.int s.per_page) ∧
    pget (build_page_params exportMethods s) "cursor" = none ∧
    pget (build_page_params exportMethods s') "query" = some (PVal.str s'.query) ∧
    pget (build_page_params exportMethods s') "filter[type]" = some (PVal.str s'.filter_type) ∧
    pget (build_page_params exportMethods s') "page[size]" = some (PVal.int s'.per_page) ∧
    pget (build_page_params exportMethods s') "page[after]" = some (PVal.str c) ∧
    pget (build_page_params exportMethods s') "cursor" = none := by
  have htr : truthyS s'.next_cursor = true := by simp [truthyS, hc, hne]
  have hb : build_page_params exportMethods s = SearchExportPaginator.get_page_params s := by
    simp [build_page_params, dictUpdate, hps, exportMethods]
  have hb' : build_page_params exportMethods s' = SearchExportPaginator.get_page_params s' := by
    simp [build_page_params, dictUpdate, hps', exportMethods]
  have hq : ∀ t : PagState, pget (SearchExportPaginator.get_page_params t) "query" =
      some (PVal.str t.query) := by
    intro t
    dsimp only [SearchExportPaginator.get_page_params]
    split <;> rfl
  have hf : ∀ t : PagState, pget (SearchExportPaginator.get_page_params t) "filter[type]" =
      some (PVal.str t.filter_type) := by
    intro t
    dsimp only [SearchExportPaginator.get_page_params]
    split <;> rfl
  have hsz : ∀ t : PagState, pget (SearchExportPaginator.get_page_params t) "page[size]" =
      some (PVal.int t.per_page) := by
    intro t
    dsimp only [SearchExportPaginator.get_page_params]
    split <;> rfl
  have hcu : ∀ t : PagState, pget (SearchExportPaginator.get_page_params t) "cursor" = none := by
    intro t
    dsimp only [SearchExportPaginator.get_page_params]
    split <;> rfl
  have hafter : pget (SearchExportPaginator.get_page_params s') "page[after]" =
      some (PVal.str c) := by
    dsimp only [SearchExportPaginator.get_page_params]
    rw [if_pos ⟨htr, hst⟩, hc]
    rfl
  exact ⟨rfl, hb ▸ hq s, hb ▸ hf s, hb ▸ hsz s, hb ▸ hcu s,
    hb' ▸ hq s', hb' ▸ hf s', hb' ▸ hsz s', hb' ▸ hafter, hb' ▸ hcu s'⟩

/-- C5 witness: a fresh export paginator and a started one holding cursor
`abc`, against the export-envelope response. -/
theorem C5_export_wire_format_witness :
    (SearchExportPaginator.init "status:open" "ticket" 100).params = [] ∧
    exportStateAbc.params = [] ∧
    exportStateAbc.next_cursor = some "abc" ∧
    ("abc" : String) ≠ "" ∧
    exportStateAbc.has_started = true ∧
    ((SearchExportPaginator.update_pagination_state
        (SearchExportPaginator.init "status:open" "ticket" 100) exportRespTok).next_cursor =
      exportRespTok.meta_after_cursor ∧
     pget (build_page_params exportMethods (SearchExportPaginator.init "status:open" "ticket" 100)) "query" =
      some (PVal.str (SearchExportPaginator.init "status:open" "ticket" 100).query) ∧
     pget (build_page_params exportMethods (SearchExportPaginator.init "status:open" "ticket" 100)) "filter[type]" =
      some (PVal.str (SearchExportPaginator.init "status:open" "ticket" 100).filter_type) ∧
     pget (build_page_params exportMethods (SearchExportPaginator.init "status:open" "ticket" 100)) "page[size]" =
      some (PVal.int (SearchExportPaginator.init "status:open" "ticket" 100).per_page) ∧
     pget (build_page_params exportMethods (SearchExportPaginator.init "status:open" "ticket" 100)) "cursor" = none ∧
     pget (build_page_params exportMethods exportStateAbc) "query" = some (PVal.str exportStateAbc.query) ∧
     pget (build_page_params exportMethods exportStateAbc) "filter[type]" = some (PVal.str exportStateAbc.filter_type) ∧
     pget (build_page_params exportMethods exportStateAbc) "page[size]" = some (PVal.int exportStateAbc.per_page) ∧
     pget (build_page_params exportMethods exportStateAbc) "page[after]" = some (PVal.str "abc") ∧
     pget (build_page_params exportMethods exportStateAbc) "cursor" = none) :=
  ⟨rfl, rfl, rfl, by decide, rfl,
    C5_export_wire_format (SearchExportPaginator.init "status:open" "ticket" 100)
      exportStateAbc exportRespTok "abc" rfl rfl rfl (by decide) rfl⟩

/-- C4 counterexample: on a started cursor paginator holding cursor `abc`,
`get_page(page=5)` does not raise — it returns a normal page — and the
request parameters it issues are identical to those of a call with no page
number (the claim says an error is raised). -/
theorem C4_counterexample :
    (get_page cursorMethods okItemFetch 0 cursorStateAbc (some 5)).isOk = true ∧
    build_page_params cursorMethods { cursorStateAbc with current_page := 5 } =
      build_page_params cursorMethods cursorStateAbc := by
  exact ⟨rfl, rfl⟩

/-- C4 amended: cursor-variant paginators do not reject an explicit page
number — `get_page(page)` stores it in `_current_page` and returns normally,
but neither the cursor nor the export variant's request parameters read the
page number, so the issued request is unchanged (no retargeting); only the
offset variant sends `page` in its parameters. -/
theorem C4_amended_no_reject (s : PagState) (p : Int) (fetch : Fetch) (k : Nat)
    (r : Response)
    (h : fetch k (build_page_params cursorMethods { s with current_page := p }) = .ok r) :
    build_page_params cursorMethods { s with current_page := p } =
      build_page_params cursorMethods s ∧
    build_page_params exportMethods { s with current_page := p } =
      build_page_params exportMethods s ∧
    get_page cursorMethods fetch k s (some p) =
      .ok (cursorMethods.update_pagination_state { s with current_page := p } r)
        (cursorMethods.extract_items r) ∧
    pget (build_page_params offsetMethods s) "page" = some (PVal.int s.current_page) := by
  refine ⟨rfl, rfl, ?_, ?_⟩
  · simp [get_page, h]
  · rw [build_page_params, dictUpdate, pget_append]
    rfl

/-- C4 witness: the amended behavior at page number 9 on the concrete
started cursor paginator. -/
theorem C4_amended_no_reject_witness :
    okItemFetch 0 (build_page_params cursorMethods { cursorStateAbc with current_page := 9 }) =
      .ok { items := [{ result_type := "x" }] } ∧
    (build_page_params cursorMethods { cursorStateAbc with current_page := 9 } =
      build_page_params cursorMethods cursorStateAbc ∧
     build_page_params exportMethods { cursorStateAbc with current_page := 9 } =
      build_page_params exportMethods cursorStateAbc ∧
     get_page cursorMethods okItemFetch 0 cursorStateAbc (some 9) =
      .ok (cursorMethods.update_pagination_state { cursorStateAbc with current_page := 9 }
            { items := [{ result_type := "x" }] })
        (cursorMethods.extract_items { items := [{ result_type := "x" }] }) ∧
     pget (build_page_params offsetMethods cursorStateAbc) "page" =
      some (PVal.int cursorStateAbc.current_page)) :=
  ⟨rfl, C4_amended_no_reject cursorStateAbc 9 okItemFetch 0
    { items := [{ result_type := "x" }] } rfl⟩

theorem get_page_none (m : PagMethods) (fetch : Fetch) (k : Nat) (s : PagState) :
    get_page m fetch k s none =
      match fetch k (build_page_params m s) with
      | .ok r => .ok (m.update_pagination_state s r) (m.extract_items r)
      | .httpError e => .httpError s e
      | .err msg => .err s msg := rfl

theorem aiterLoop_log_extend (m : PagMethods) (fetch : Fetch) :
    ∀ (fuel k : Nat) (s : PagState) (acc : List RawResult) (log : List Params),
      ∃ rest, (aiterLoop m fetch fuel k s acc log).2.1 = log ++ rest := by
  intro fuel
  induction fuel with
  | zero => exact fun k s acc log => ⟨[], by simp [aiterLoop]⟩
  | succ n ih =>
    intro k s acc log
    unfold aiterLoop
    cases hg : get_page m fetch k s none with
    | ok s' items =>
      by_cases hm : m.has_more_pages s'
      · obtain ⟨rest, hr⟩ :=
          ih (k+1) (m.advance_to_next_page s') (acc ++ items) (log ++ [build_page_params m s])
        exact ⟨[build_page_params m s] ++ rest, by simp [hg, hm, hr]⟩
      · exact ⟨[build_page_params m s], by simp [hg, hm]⟩
    | httpError s' e =>
      by_cases h4 : e.status_code = 422 <;>
        exact ⟨[build_page_params m s], by simp [hg, h4]⟩
    | err s' msg => exact ⟨[build_page_params m s], by simp [hg]⟩

theorem aiterLoop_log_head (m : PagMethods) (fetch : Fetch) (fuel k : Nat)
    (s : PagState) (acc : List RawResult) (log : List Params) :
    ∃ rest, (aiterLoop m fetch (fuel+1) k s acc log).2.1 =
      (log ++ [build_page_params m s]) ++ rest := by
  unfold aiterLoop
  cases hg : get_page m fetch k s none with
  | ok s' items =>
    by_cases hm : m.has_more_pages s'
    · obtain ⟨rest, hr⟩ := aiterLoop_log_extend m fetch fuel (k+1)
        (m.advance_to_next_page s') (acc ++ items) (log ++ [build_page_params m s])
      exact ⟨rest, by simp [hg, hm, hr]⟩
    · exact ⟨[], by simp [hg, hm]⟩
  | httpError s' e =>
    by_cases h4 : e.status_code = 422 <;> exact ⟨[], by simp [hg, h4]⟩
  | err s' msg => exact ⟨[], by simp [hg]⟩

/-- C10: `Paginator.__aiter__` resets only `_current_page` to 1 and leaves
every other pagination field unchanged; consequently, for a cursor paginator
abandoned mid-traversal with a saved (non-empty) next-cursor token, the
first request of a fresh iteration still carries that stale `cursor`
parameter instead of starting from the beginning. -/
theorem C10_aiter_reset_frame (s : PagState) (fetch : Fetch) (fuel : Nat)
    (c : String) (hc : s.next_cursor = some c) (hne : c ≠ "")
    (hst : s.has_started = true) :
    (aiterReset s).current_page = 1 ∧
    (aiterReset s).path = s.path ∧
    (aiterReset s).params = s.params ∧
    (aiterReset s).per_page = s.per_page ∧
    (aiterReset s).pagination_info = s.pagination_info ∧
    (aiterReset s).next_cursor = s.next_cursor ∧
    (aiterReset s).has_started = s.has_started ∧
    (aiterReset s).query = s.query ∧
    (aiterReset s).filter_type = s.filter_type ∧
    (aiterReset s).next_url = s.next_url ∧
    (aiterRun cursorMethods fetch (fuel+1) s).2.1.head? =
      some (build_page_params cursorMethods (aiterReset s)) ∧
    pget (build_page_params cursorMethods (aiterReset s)) "cursor" =
      some (PVal.str c) := by
  refine ⟨rfl, rfl, rfl, rfl, rfl, rfl, rfl, rfl, rfl, rfl, ?_, ?_⟩
  · obtain ⟨rest, hr⟩ :=
      aiterLoop_log_head cursorMethods fetch fuel 0 (aiterReset s) [] []
    unfold aiterRun
    rw [hr]
    simp
  · have htr : truthyS (aiterReset s).next_cursor = true := by
      simp [aiterReset, truthyS, hc, hne]
    rw [build_page_params, dictUpdate, pget_append]
    dsimp only [cursorMethods, CursorPaginator.get_page_params]
    rw [if_pos ⟨htr, hst⟩]
    have : (aiterReset s).next_cursor = some c := hc
    rw [this]
    rfl

/-- C10 witness: the abandoned started cursor paginator holding cursor
`abc`. -/
theorem C10_aiter_reset_frame_witness :
    cursorStateAbc.next_cursor = some "abc" ∧
    ("abc" : String) ≠ "" ∧
    cursorStateAbc.has_started = true ∧
    ((aiterReset cursorStateAbc).current_page = 1 ∧
     (aiterReset cursorStateAbc).path = cursorStateAbc.path ∧
     (aiterReset cursorStateAbc).params = cursorStateAbc.params ∧
     (aiterReset cursorStateAbc).per_page = cursorStateAbc.per_page ∧
     (aiterReset cursorStateAbc).pagination_info = cursorStateAbc.pagination_info ∧
     (aiterReset cursorStateAbc).next_cursor = cursorStateAbc.next_cursor ∧
     (aiterReset cursorStateAbc).has_started = cursorStateAbc.has_started ∧
     (aiterReset cursorStateAbc).query = cursorStateAbc.query ∧
     (aiterReset cursorStateAbc).filter_type = cursorStateAbc.filter_type ∧
     (aiterReset cursorStateAbc).next_url = cursorStateAbc.next_url ∧
     (aiterRun cursorMethods okItemFetch (0+1) cursorStateAbc).2.1.head? =
       some (build_page_params cursorMethods (aiterReset cursorStateAbc)) ∧
     pget (build_page_params cursorMethods (aiterReset cursorStateAbc)) "cursor" =
       some (PVal.str "abc")) :=
  ⟨rfl, by decide, rfl,
    C10_aiter_reset_frame cursorStateAbc okItemFetch 0 "abc" rfl (by decide) rfl⟩

/-- C2 (code bug): when the last offset response reported neither `has_more`
nor `count`, `OffsetPaginator._has_more_pages` falls through to an
unconditional `return True` — even when the page was empty — so iteration
never terminates on a server that keeps answering bare empty pages; the
claim (and the source's own fallback comment) say an empty page with no
stronger signal ends iteration. -/
theorem C2_offset_fallback_bug :
    OffsetPaginator.has_more_pages
      (OffsetPaginator.update_pagination_state
        (aiterReset (mkSearchPaginator "q" 100)) emptyResponse) = true ∧
    searchMethods.extract_items emptyResponse = [] ∧
    ∀ fuel k s acc log,
      (aiterLoop searchMethods emptyFetch fuel k s acc log).2.2 = IterEnd.fuelOut := by
  refine ⟨rfl, rfl, ?_⟩
  intro fuel
  induction fuel with
  | zero => intro k s acc log; simp [aiterLoop]
  | succ n ih =>
    intro k s acc log
    have hg : get_page searchMethods emptyFetch k s none =
        .ok (searchMethods.update_pagination_state s emptyResponse) [] := rfl
    have hm : searchMethods.has_more_pages
        (searchMethods.update_pagination_state s emptyResponse) = true := rfl
    have step : aiterLoop searchMethods emptyFetch (n+1) k s acc log =
        aiterLoop searchMethods emptyFetch n (k+1)
          (searchMethods.advance_to_next_page
            (searchMethods.update_pagination_state s emptyResponse))
          (acc ++ []) (log ++ [build_page_params searchMethods s]) := by
      conv_lhs => unfold aiterLoop
      simp only [hg]
      simp [hm]
    rw [step]
    exact ih (k+1) _ _ _

/-- C3 counterexample: with a transport that answers every page fetch with a
404, the enriched-search page loop ends silently with no pages and no
raised error — the 404 does not surface to the caller (the claim says any
non-422 error surfaces). -/
theorem C3_counterexample_404_swallowed :
    paginateEnrichedLoop searchMethods fetch404 5 0 (mkSearchPaginator "q" 100) [] =
      ([], IterEnd.done) := by
  rfl

/-- C3 amended: in `search_enriched`'s page loop (`_paginate_enriched`),
every error raised while fetching a page — HTTP errors of any status,
including non-422 ones, and any other exception — silently ends the
sequence (`except Exception: break`); no error ever surfaces to the caller
from that loop. -/
theorem C3_amended_swallow (m : PagMethods) (fetch : Fetch) :
    (∀ fuel k s acc e,
      (paginateEnrichedLoop m fetch fuel k s acc).2 ≠ IterEnd.raised e) ∧
    (∀ fuel k s acc exc, fetch k (build_page_params m s) = .httpError exc →
      paginateEnrichedLoop m fetch (fuel+1) k s acc = (acc, .done)) ∧
    (∀ fuel k s acc msg, fetch k (build_page_params m s) = .err msg →
      paginateEnrichedLoop m fetch (fuel+1) k s acc = (acc, .done)) := by
  refine ⟨?_, ?_, ?_⟩
  · intro fuel
    induction fuel with
    | zero =>
      intro k s acc e
      have h0 : (paginateEnrichedLoop m fetch 0 k s acc).2 = IterEnd.fuelOut := rfl
      rw [h0]
      exact fun h => IterEnd.noConfusion h
    | succ n ih =>
      intro k s acc e
      cases hg : get_page m fetch k s none with
      | ok s' items =>
        by_cases hm : m.has_more_pages s'
        · have step : paginateEnrichedLoop m fetch (n+1) k s acc =
              paginateEnrichedLoop m fetch n (k+1) (m.advance_to_next_page s')
                (if items ≠ [] then acc ++ [items] else acc) := by
            conv_lhs => unfold paginateEnrichedLoop
            rw [hg]
            simp [hm]
          rw [step]
          exact ih (k+1) (m.advance_to_next_page s')
            (if items ≠ [] then acc ++ [items] else acc) e
        · have step : (paginateEnrichedLoop m fetch (n+1) k s acc).2 = IterEnd.done := by
            conv_lhs => unfold paginateEnrichedLoop
            rw [hg]
            simp [hm]
          rw [step]
          exact fun h => IterEnd.noConfusion h
      | httpError s' e' =>
        have step : (paginateEnrichedLoop m fetch (n+1) k s acc).2 = IterEnd.done := by
          conv_lhs => unfold paginateEnrichedLoop
          rw [hg]
        rw [step]
        exact fun h => IterEnd.noConfusion h
      | err s' msg =>
        have step : (paginateEnrichedLoop m fetch (n+1) k s acc).2 = IterEnd.done := by
          conv_lhs => unfold paginateEnrichedLoop
          rw [hg]
        rw [step]
        exact fun h => IterEnd.noConfusion h
  · intro fuel k s acc exc h
    conv_lhs => unfold paginateEnrichedLoop
    rw [get_page_none, h]
  · intro fuel k s acc msg h
    conv_lhs => unfold paginateEnrichedLoop
    rw [get_page_none, h]

/-- C3 witness: the silent-swallow behavior applied to the concrete 404
transport on a fresh search paginator. -/
theorem C3_amended_swallow_witness :
    fetch404 0 (build_page_params searchMethods (mkSearchPaginator "w" 50)) =
      .httpError ⟨404, "Not Found"⟩ ∧
    paginateEnrichedLoop searchMethods fetch404 (0+1) 0 (mkSearchPaginator "w" 50) [] =
      ([], IterEnd.done) :=
  ⟨rfl, (C3_amended_swallow searchMethods fetch404).2.1 0 0
    (mkSearchPaginator "w" 50) [] ⟨404, "Not Found"⟩ rfl⟩

/-- C1: for every paginator, at any point of the `__aiter__` iteration, an
HTTP error with status 422 ends the yielded sequence gracefully (no error),
while an HTTP error of any other status raises a pagination error whose
message wraps the transport error and whose context records the current
page and per-page values at the time of failure. -/
theorem C1_http_error_during_iteration (m : PagMethods) (fetch : Fetch)
    (fuel k : Nat) (s : PagState) (acc : List RawResult) (log : List Params)
    (e : ZendeskHTTPException)
    (h : fetch k (build_page_params m s) = .httpError e) :
    (e.status_code = 422 →
      aiterLoop m fetch (fuel+1) k s acc log =
        (acc, log ++ [build_page_params m s], IterEnd.done)) ∧
    (e.status_code ≠ 422 →
      aiterLoop m fetch (fuel+1) k s acc log =
        (acc, log ++ [build_page_params m s],
         IterEnd.raised
           { message := "Error during pagination: " ++ e.message
             context := [("page", s.current_page), ("per_page", s.per_page)] })) := by
  have hg : get_page m fetch k s none = .httpError s e := by
    rw [get_page_none, h]
  constructor
  · intro h422
    conv_lhs => unfold aiterLoop
    simp only [hg]
    simp [h422, pagExc, ZendeskHTTPException.toText]
  · intro hne
    conv_lhs => unfold aiterLoop
    simp only [hg]
    simp [hne, pagExc, ZendeskHTTPException.toText]

/-- C1 witness: a 422 on page 11 of a search iteration ends the sequence
without raising; a 404 on page 3 raises a pagination error recording
page 3 and per-page 100. -/
theorem C1_http_error_during_iteration_witness :
    fetch422 10 (build_page_params searchMethods statePage11) =
      .httpError ⟨422, "unprocessable entity"⟩ ∧
    ((422 : Int) = 422) ∧
    aiterLoop searchMethods fetch422 (2+1) 10 statePage11 [] [] =
      ([], [] ++ [build_page_params searchMethods statePage11], IterEnd.done) ∧
    fetch404 2 (build_page_params searchMethods statePage3) =
      .httpError ⟨404, "Not Found"⟩ ∧
    ((404 : Int) ≠ 422) ∧
    aiterLoop searchMethods fetch404 (2+1) 2 statePage3 [] [] =
      ([], [] ++ [build_page_params searchMethods statePage3],
       IterEnd.raised
         { message := "Error during pagination: " ++ "Not Found"
           context := [("page", statePage3.current_page),
                       ("per_page", statePage3.per_page)] }) :=
  ⟨rfl, rfl,
   (C1_http_error_during_iteration searchMethods fetch422 2 10 statePage11 [] []
      ⟨422, "unprocessable entity"⟩ rfl).1 rfl,
   rfl, by decide,
   (C1_http_error_during_iteration searchMethods fetch404 2 2 statePage3 [] []
      ⟨404, "Not Found"⟩ rfl).2 (by decide)⟩

theorem consume_items_stop (L : Int) :
    ∀ (items : List RawResult) (n : Nat) (cnt : Int) (acc : List Ticket),
      0 < n → 0 ≤ cnt → L = cnt + n →
      n ≤ (items.filter (fun it => it.result_type = "ticket")).length →
      consume_items (some L) items cnt acc =
        .stop (acc ++ ((items.filter (fun it => it.result_type = "ticket")).take n).map
          (fun it => it.ticket)) := by
  intro items
  induction items with
  | nil =>
    intro n cnt acc hn hc hL hlen
    simp at hlen
    omega
  | cons it rest ih =>
    intro n cnt acc hn hc hL hlen
    by_cases ht : it.result_type = "ticket"
    · have htr : truthyI (some L) = true := by
        simp only [truthyI, decide_eq_true_eq]
        omega
      by_cases h1 : n = 1
      · subst h1
        have hstop : (truthyI (some L) = true) ∧ (some L).getD 0 ≤ cnt + 1 :=
          ⟨htr, by simp [Option.getD]; omega⟩
        simp only [consume_items]
        rw [if_pos ht, if_pos hstop]
        simp [List.filter_cons, ht]
      · have h2 : 2 ≤ n := by omega
        have hnostop : ¬ ((truthyI (some L) = true) ∧ (some L).getD 0 ≤ cnt + 1) := by
          rintro ⟨-, habs⟩
          simp [Option.getD] at habs
          omega
        simp only [consume_items]
        rw [if_pos ht, if_neg hnostop]
        have hrec := ih (n-1) (cnt+1) (acc ++ [it.ticket]) (by omega) (by omega)
          (by omega)
          (by
            have : (List.filter (fun it => it.result_type = "ticket") (it :: rest)).length =
                (List.filter (fun it => it.result_type = "ticket") rest).length + 1 := by
              simp [List.filter_cons, ht]
            omega)
        rw [hrec]
        have hn' : n = (n - 1) + 1 := by omega
        rw [List.filter_cons_of_pos (by simp [ht]), hn', List.take_succ_cons]
        simp
    · simp only [consume_items]
      rw [if_neg ht]
      have hrec := ih n cnt acc hn hc hL
        (by
          have : List.filter (fun it => it.result_type = "ticket") (it :: rest) =
              List.filter (fun it => it.result_type = "ticket") rest := by
            simp [List.filter_cons, ht]
          rw [this] at hlen
          exact hlen)
      rw [hrec, List.filter_cons_of_neg (by simp [ht])]

/-- C6: for a limited iteration of `SearchClient.tickets` whose first page
already contains at least `limit` ticket-typed results, exactly `limit`
items are yielded (the first `limit` matching ones, in order), exactly one
page fetch is issued, and the iteration ends without further requests. -/
theorem C6_limit_short_circuit (fetch : Fetch) (q : String) (pp L : Int)
    (n fuel : Nat) (r : Response)
    (hL : L = (n : Int)) (hn : 0 < n)
    (hfetch : fetch 0 (build_page_params searchMethods
        (aiterReset (mkSearchPaginator q pp))) = .ok r)
    (hm : n ≤ (r.results.filter (fun it => it.result_type = "ticket")).length) :
    searchTicketsRun fetch (some L) (fuel+1) q pp =
      (((r.results.filter (fun it => it.result_type = "ticket")).take n).map
          (fun it => it.ticket),
        [build_page_params searchMethods (aiterReset (mkSearchPaginator q pp))],
        IterEnd.done) ∧
    (((r.results.filter (fun it => it.result_type = "ticket")).take n).map
        (fun it => it.ticket)).length = n := by
  have hg : get_page searchMethods fetch 0 (aiterReset (mkSearchPaginator q pp)) none =
      .ok (searchMethods.update_pagination_state (aiterReset (mkSearchPaginator q pp)) r)
          r.results := by
    rw [get_page_none, hfetch]
    rfl
  have hcons := consume_items_stop L r.results n 0 [] hn (by omega) (by omega) hm
  constructor
  · unfold searchTicketsRun
    conv_lhs => unfold searchTicketsLoop
    simp only [hg, hcons]
    simp
  · rw [List.length_map, List.length_take]
    omega

/-- C6 witness: limit 5 against a first page of ten ticket results — five
items yielded, one page fetch, graceful stop. -/
theorem C6_limit_short_circuit_witness :
    ((5 : Int) = ((5 : Nat) : Int)) ∧
    (0 < (5 : Nat)) ∧
    tenTicketsFetch 0 (build_page_params searchMethods
        (aiterReset (mkSearchPaginator "q" 100))) = .ok tenTicketsResponse ∧
    ((5 : Nat) ≤ (tenTicketsResponse.results.filter
        (fun it => it.result_type = "ticket")).length) ∧
    (searchTicketsRun tenTicketsFetch (some 5) (0+1) "q" 100 =
      (((tenTicketsResponse.results.filter (fun it => it.result_type = "ticket")).take 5).map
          (fun it => it.ticket),
        [build_page_params searchMethods (aiterReset (mkSearchPaginator "q" 100))],
        IterEnd.done) ∧
     (((tenTicketsResponse.results.filter (fun it => it.result_type = "ticket")).take 5).map
        (fun it => it.ticket)).length = 5) :=
  ⟨rfl, by decide, rfl, by decide,
    C6_limit_short_circuit tenTicketsFetch "q" 100 5 5 0 tenTicketsResponse
      rfl (by decide) rfl (by decide)⟩

/-- C7: `get_enriched` issues exactly two transport GETs — the ticket with
sideloaded users, then its comments with sideloaded users — and the
composite's user map is the id-keyed union of the two sideloaded maps in
which a comments-side entry wins over a ticket-side entry on collision. -/
theorem C7_single_enrichment (http : String → Params → Response)
    (ticket_id tid uid : Int) (t : Ticket)
    (h1 : (http ("tickets/" ++ toString ticket_id ++ ".json")
        [("include", PVal.str "users")]).ticket = some t)
    (h2 : t.id = some tid) :
    get_enriched http ticket_id =
      .ok ({ ticket := t
             comments := (http ("tickets/" ++ toString tid ++ "/comments.json")
                [("include", PVal.str "users")]).comments
             users := (extract_users_from_response
                  (http ("tickets/" ++ toString ticket_id ++ ".json")
                    [("include", PVal.str "users")]).users).union
                (extract_users_from_response
                  (http ("tickets/" ++ toString tid ++ "/comments.json")
                    [("include", PVal.str "users")]).users) },
           [⟨"tickets/" ++ toString ticket_id ++ ".json", [("include", PVal.str "users")]⟩,
            ⟨"tickets/" ++ toString tid ++ "/comments.json", [("include", PVal.str "users")]⟩]) ∧
    ((extract_users_from_response (http ("tickets/" ++ toString ticket_id ++ ".json")
          [("include", PVal.str "users")]).users).union
      (extract_users_from_response (http ("tickets/" ++ toString tid ++ "/comments.json")
          [("include", PVal.str "users")]).users)) uid =
      (if ((extract_users_from_response (http ("tickets/" ++ toString tid ++ "/comments.json")
            [("include", PVal.str "users")]).users) uid).isSome
       then (extract_users_from_response (http ("tickets/" ++ toString tid ++ "/comments.json")
            [("include", PVal.str "users")]).users) uid
       else (extract_users_from_response (http ("tickets/" ++ toString ticket_id ++ ".json")
            [("include", PVal.str "users")]).users) uid) := by
  constructor
  · unfold get_enriched http_get
    simp only [h1]
    unfold build_enriched_ticket
    simp only [h2]
    unfold http_get
    rfl
  · cases hcu : (extract_users_from_response
        (http ("tickets/" ++ toString tid ++ "/comments.json")
          [("include", PVal.str "users")]).users) uid <;>
      simp [UserMap.union, hcu]

/-- C7 witness: enriching ticket 7, whose requester (id 10) is sideloaded by
both calls — the comments-side record wins. -/
theorem C7_single_enrichment_witness :
    (httpSeven ("tickets/" ++ toString (7 : Int) ++ ".json")
        [("include", PVal.str "users")]).ticket = some ticketSeven ∧
    ticketSeven.id = some 7 ∧
    (get_enriched httpSeven 7 =
      .ok ({ ticket := ticketSeven
             comments := (httpSeven ("tickets/" ++ toString (7 : Int) ++ "/comments.json")
                [("include", PVal.str "users")]).comments
             users := (extract_users_from_response
                  (httpSeven ("tickets/" ++ toString (7 : Int) ++ ".json")
                    [("include", PVal.str "users")]).users).union
                (extract_users_from_response
                  (httpSeven ("tickets/" ++ toString (7 : Int) ++ "/comments.json")
                    [("include", PVal.str "users")]).users) },
           [⟨"tickets/" ++ toString (7 : Int) ++ ".json", [("include", PVal.str "users")]⟩,
            ⟨"tickets/" ++ toString (7 : Int) ++ "/comments.json", [("include", PVal.str "users")]⟩]) ∧
     ((extract_users_from_response (httpSeven ("tickets/" ++ toString (7 : Int) ++ ".json")
          [("include", PVal.str "users")]).users).union
      (extract_users_from_response (httpSeven ("tickets/" ++ toString (7 : Int) ++ "/comments.json")
          [("include", PVal.str "users")]).users)) 10 =
      (if ((extract_users_from_response (httpSeven ("tickets/" ++ toString (7 : Int) ++ "/comments.json")
            [("include", PVal.str "users")]).users) 10).isSome
       then (extract_users_from_response (httpSeven ("tickets/" ++ toString (7 : Int) ++ "/comments.json")
            [("include", PVal.str "users")]).users) 10
       else (extract_users_from_response (httpSeven ("tickets/" ++ toString (7 : Int) ++ ".json")
            [("include", PVal.str "users")]).users) 10)) :=
  ⟨rfl, rfl, C7_single_enrichment httpSeven 7 7 10 ticketSeven rfl rfl⟩

theorem mem_sadd (s : List Int) (x y : Int) : x ∈ sadd s y ↔ x ∈ s ∨ x = y := by
  unfold sadd
  by_cases h : y ∈ s
  · rw [if_pos h]
    constructor
    · exact Or.inl
    · rintro (hx | rfl)
      · exact hx
      · exact h
  · rw [if_neg h]
    simp

theorem nodup_sadd (s : List Int) (y : Int) (h : s.Nodup) : (sadd s y).Nodup := by
  unfold sadd
  by_cases hy : y ∈ s <;> simp [hy, h, List.nodup_append]

theorem mem_supdate (l : List Int) :
    ∀ (s : List Int) (x : Int), x ∈ supdate s l ↔ x ∈ s ∨ x ∈ l := by
  induction l with
  | nil => simp [supdate]
  | cons a l ih =>
    intro s x
    have hstep : supdate s (a :: l) = supdate (sadd s a) l := rfl
    rw [hstep]
    have := ih (sadd s a) x
    rw [supdate] at this
    rw [supdate, this, mem_sadd]
    simp only [List.mem_cons]
    tauto

theorem nodup_supdate (l : List Int) :
    ∀ s : List Int, s.Nodup → (supdate s l).Nodup := by
  induction l with
  | nil => exact fun s h => h
  | cons a l ih =>
    intro s h
    exact ih (sadd s a) (nodup_sadd s a h)

theorem mem_addIfTruthyI (o : Option Int) (s : List Int) (x : Int) :
    x ∈ addIfTruthyI o s ↔ x ∈ s ∨ (o = some x ∧ x ≠ 0) := by
  unfold addIfTruthyI
  cases o with
  | none => simp [truthyI]
  | some v =>
    by_cases hv : v = 0
    · subst hv
      rw [if_neg (by decide)]
      constructor
      · exact Or.inl
      · rintro (hx | ⟨he, hne⟩)
        · exact hx
        · cases he
          exact absurd rfl hne
    · rw [if_pos (by simp [truthyI, hv]), mem_sadd]
      constructor
      · rintro (hx | rfl)
        · exact Or.inl hx
        · exact Or.inr ⟨rfl, hv⟩
      · rintro (hx | ⟨he, -⟩)
        · exact Or.inl hx
        · cases he
          exact Or.inr rfl

theorem nodup_addIfTruthyI (o : Option Int) (s : List Int) (h : s.Nodup) :
    (addIfTruthyI o s).Nodup := by
  unfold addIfTruthyI
  split
  · exact nodup_sadd _ _ h
  · exact h

theorem mem_addIfTruthyL (o : Option (List Int)) (s : List Int) (x : Int) :
    x ∈ addIfTruthyL o s ↔ x ∈ s ∨ (∃ l, o = some l ∧ x ∈ l) := by
  unfold addIfTruthyL
  cases o with
  | none => simp [truthyL]
  | some l =>
    by_cases hl : l = []
    · subst hl
      simp [truthyL]
    · simp only [truthyL]
      rw [if_pos (by simp [hl]), mem_supdate]
      simp

theorem nodup_addIfTruthyL (o : Option (List Int)) (s : List Int) (h : s.Nodup) :
    (addIfTruthyL o s).Nodup := by
  unfold addIfTruthyL
  split
  · exact nodup_supdate _ _ h
  · exact h

theorem mem_collectTicketIds (t : Ticket) (s : List Int) (x : Int) :
    x ∈ collectTicketIds s t ↔ x ∈ s ∨ refersTo t x := by
  unfold collectTicketIds refersTo
  rw [mem_addIfTruthyL, mem_addIfTruthyL, mem_addIfTruthyI, mem_addIfTruthyI,
    mem_addIfTruthyI]
  simp only [or_assoc]

theorem nodup_collectTicketIds (t : Ticket) (s : List Int) (h : s.Nodup) :
    (collectTicketIds s t).Nodup := by
  unfold collectTicketIds
  exact nodup_addIfTruthyL _ _ (nodup_addIfTruthyL _ _ (nodup_addIfTruthyI _ _
    (nodup_addIfTruthyI _ _ (nodup_addIfTruthyI _ _ h))))

theorem collect_nodup (tickets : List Ticket) :
    (collect_user_ids_from_tickets tickets).Nodup := by
  suffices h : ∀ (ts : List Ticket) (s : List Int), s.Nodup →
      (List.foldl collectTicketIds s ts).Nodup by
    exact h tickets [] List.nodup_nil
  intro ts
  induction ts with
  | nil => exact fun s hs => hs
  | cons t ts ih =>
    intro s hs
    exact ih (collectTicketIds s t) (nodup_collectTicketIds t s hs)

theorem mem_collect (tickets : List Ticket) (x : Int) :
    x ∈ collect_user_ids_from_tickets tickets ↔ ∃ t ∈ tickets, refersTo t x := by
  suffices h : ∀ (ts : List Ticket) (s : List Int),
      x ∈ List.foldl collectTicketIds s ts ↔ x ∈ s ∨ ∃ t ∈ ts, refersTo t x by
    simpa using h tickets []
  intro ts
  induction ts with
  | nil => simp
  | cons t ts ih =>
    intro s
    rw [List.foldl_cons, ih (collectTicketIds s t), mem_collectTicketIds]
    simp only [List.mem_cons]
    constructor
    · rintro ((hx | hr) | ⟨t', ht', hr'⟩)
      · exact Or.inl hx
      · exact Or.inr ⟨t, Or.inl rfl, hr⟩
      · exact Or.inr ⟨t', Or.inr ht', hr'⟩
    · rintro (hx | ⟨t', (rfl | ht'), hr'⟩)
      · exact Or.inl (Or.inl hx)
      · exact Or.inl (Or.inr hr')
      · exact Or.inr ⟨t', ht', hr'⟩

theorem foldl_sadd_eq (l : List Int) :
    ∀ acc : List Int, (acc ++ l).Nodup → l.foldl sadd acc = acc ++ l := by
  induction l with
  | nil => simp
  | cons a l ih =>
    intro acc h
    have ha : a ∉ acc := by
      rw [List.nodup_append] at h
      intro hin
      exact h.2.2 hin (List.mem_cons_self a l)
    have hs : sadd acc a = acc ++ [a] := by
      unfold sadd
      rw [if_neg ha]
    rw [List.foldl_cons, hs, ih (acc ++ [a]) (by simpa using h)]
    simp

theorem pySetList_self (l : List Int) (h : l.Nodup) : pySetList l = l := by
  have := foldl_sadd_eq l [] (by simpa using h)
  simpa [pySetList] using this

theorem extract_users_append (l : List UserRec) (u : UserRec) (uid : Int) :
    extract_users_from_response (l ++ [u]) uid =
      match u.id with
      | some i => if uid = i then some u else extract_users_from_response l uid
      | none => extract_users_from_response l uid := by
  unfold extract_users_from_response
  rw [List.foldl_append]
  cases hu : u.id <;> simp [hu, UserMap.insert]

theorem extract_filterMap (db : Int → Option UserRec)
    (hdb : ∀ i u, db i = some u → u.id = some i) (uid : Int) :
    ∀ req : List Int, req.Nodup →
      extract_users_from_response (req.filterMap db) uid =
      if uid ∈ req then db uid else none := by
  intro req
  induction req using List.reverseRecOn with
  | nil =>
    intro hnil
    simp [extract_users_from_response, UserMap.empty]
  | append_singleton req a ih =>
    intro h
    have hnd : req.Nodup := (List.nodup_append.mp h).1
    have hna : a ∉ req := by
      rw [List.nodup_append] at h
      intro hin
      exact h.2.2 hin (List.mem_singleton.mpr rfl)
    rw [List.filterMap_append]
    cases hda : db a with
    | none =>
      have hfa : List.filterMap db [a] = [] := by simp [hda]
      rw [hfa, List.append_nil, ih hnd]
      by_cases hua : uid = a
      · subst hua
        simp [hna, hda]
      · by_cases hu : uid ∈ req <;> simp [hu, hua]
    | some u =>
      have hui : u.id = some a := hdb a u hda
      have hfa : List.filterMap db [a] = [u] := by simp [hda]
      rw [hfa, extract_users_append, hui, ih hnd]
      by_cases hua : uid = a
      · subst hua
        simp [hna, hda]
      · by_cases hu : uid ∈ req <;> simp [hu, hua]

/-- C8: the batched user resolve of batch enrichment issues exactly one
`users/show_many` call (the id set being non-empty); the requested ids are
the deduplicated union of ids referenced across all tickets (requester,
assignee, submitter, collaborators, followers), deduplicated before the
100-cap truncation, so the request holds `min |union| 100` distinct ids;
ids beyond the cap are not resolved (lookups for them return nothing), and
no further call occurs. -/
theorem C8_batched_user_resolve (tickets : List Ticket)
    (db : Int → Option UserRec) (x uid : Int)
    (hne : collect_user_ids_from_tickets tickets ≠ [])
    (hdb : ∀ i u, db i = some u → u.id = some i) :
    (fetch_users_batch db (collect_user_ids_from_tickets tickets)).calls = 1 ∧
    (fetch_users_batch db (collect_user_ids_from_tickets tickets)).requested =
      (collect_user_ids_from_tickets tickets).take 100 ∧
    (fetch_users_batch db (collect_user_ids_from_tickets tickets)).requested.Nodup ∧
    (fetch_users_batch db (collect_user_ids_from_tickets tickets)).requested.length =
      min (collect_user_ids_from_tickets tickets).length 100 ∧
    (x ∈ collect_user_ids_from_tickets tickets ↔ ∃ t ∈ tickets, refersTo t x) ∧
    (fetch_users_batch db (collect_user_ids_from_tickets tickets)).users uid =
      (if uid ∈ (collect_user_ids_from_tickets tickets).take 100 then db uid
       else none) := by
  have hnd := collect_nodup tickets
  have hset : pySetList (collect_user_ids_from_tickets tickets) =
      collect_user_ids_from_tickets tickets := pySetList_self _ hnd
  have hndtake : ((collect_user_ids_from_tickets tickets).take 100).Nodup :=
    (List.take_sublist 100 _).nodup hnd
  have hcalls : (fetch_users_batch db (collect_user_ids_from_tickets tickets)).calls = 1 := by
    unfold fetch_users_batch
    rw [if_neg hne]
  have hreq : (fetch_users_batch db (collect_user_ids_from_tickets tickets)).requested =
      (collect_user_ids_from_tickets tickets).take 100 := by
    unfold fetch_users_batch
    rw [if_neg hne]
    simp [hset]
  have husers : (fetch_users_batch db (collect_user_ids_from_tickets tickets)).users uid =
      (if uid ∈ (collect_user_ids_from_tickets tickets).take 100 then db uid
       else none) := by
    unfold fetch_users_batch
    rw [if_neg hne]
    simp only [hset]
    exact extract_filterMap db hdb uid _ hndtake
  refine ⟨hcalls, hreq, ?_, ?_, mem_collect tickets x, husers⟩
  · rw [hreq]
    exact hndtake
  · rw [hreq, List.length_take, Nat.min_comm]

set_option maxRecDepth 8192 in
/-- C8 witness: a ticket referencing 150 distinct follower ids against a
full user database — one call, the first 100 distinct ids requested, id 101
(beyond the cap) left unresolved per the cap rule. -/
theorem C8_batched_user_resolve_witness :
    collect_user_ids_from_tickets [ticket150] ≠ [] ∧
    ((fetch_users_batch dbAll (collect_user_ids_from_tickets [ticket150])).calls = 1 ∧
     (fetch_users_batch dbAll (collect_user_ids_from_tickets [ticket150])).requested =
       (collect_user_ids_from_tickets [ticket150]).take 100 ∧
     (fetch_users_batch dbAll (collect_user_ids_from_tickets [ticket150])).requested.Nodup ∧
     (fetch_users_batch dbAll (collect_user_ids_from_tickets [ticket150])).requested.length =
       min (collect_user_ids_from_tickets [ticket150]).length 100 ∧
     ((150 : Int) ∈ collect_user_ids_from_tickets [ticket150] ↔
       ∃ t ∈ [ticket150], refersTo t 150) ∧
     (fetch_users_batch dbAll (collect_user_ids_from_tickets [ticket150])).users 101 =
       (if (101 : Int) ∈ (collect_user_ids_from_tickets [ticket150]).take 100
        then dbAll 101 else none)) :=
  ⟨by decide,
   C8_batched_user_resolve [ticket150] dbAll 150 101 (by decide)
     (fun i u h => by cases h; rfl)⟩

theorem gatherStep_length {α β : Type} (tasks : List α) (run : α → β)
    (slots : List (Option β)) (i : Nat) :
    (gatherStep tasks run slots i).length = slots.length := by
  unfold gatherStep
  cases tasks.get? i <;> simp

theorem gather_foldl_length {α β : Type} (tasks : List α) (run : α → β) :
    ∀ (order : List Nat) (slots : List (Option β)),
      (order.foldl (gatherStep tasks run) slots).length = slots.length := by
  intro order
  induction order with
  | nil => intro slots; rfl
  | cons i o ih =>
    intro slots
    rw [List.foldl_cons, ih, gatherStep_length]

theorem gather_foldl_get {α β : Type} (tasks : List α) (run : α → β) (j : Nat)
    (hj : j < tasks.length) :
    ∀ (order : List Nat) (slots : List (Option β)), slots.length = tasks.length →
      (order.foldl (gatherStep tasks run) slots).get? j =
      if j ∈ order then (tasks.get? j).map (fun t => some (run t))
      else slots.get? j := by
  intro order
  induction order with
  | nil =>
    intro slots hlen
    simp
  | cons i o ih =>
    intro slots hlen
    rw [List.foldl_cons, ih (gatherStep tasks run slots i)
      (by rw [gatherStep_length]; exact hlen)]
    by_cases hjo : j ∈ o
    · simp [hjo]
    · simp only [hjo, if_false]
      by_cases hji : j = i
      · subst hji
        obtain ⟨t, ht⟩ : ∃ t, tasks.get? j = some t := by
          rw [List.get?_eq_get hj]
          exact ⟨tasks.get ⟨j, hj⟩, rfl⟩
        unfold gatherStep
        rw [ht]
        have hjlt : j < slots.length := by rw [hlen]; exact hj
        rw [List.get?_set_eq_of_lt _ hjlt]
        simp [ht]
      · have hmem : ¬ j ∈ i :: o := by
          simp [hji, hjo]
        rw [if_neg hmem]
        unfold gatherStep
        cases tasks.get? i with
        | none => rfl
        | some t => exact List.get?_set_ne _ _ (fun he => hji he.symm)

theorem gatherPerm_eq_map {α β : Type} (tasks : List α) (run : α → β)
    (order : List Nat) (h : ∀ j, j < tasks.length → j ∈ order) :
    gatherPerm tasks run order = tasks.map (fun t => some (run t)) := by
  apply List.ext_get?
  intro j
  by_cases hj : j < tasks.length
  · unfold gatherPerm
    rw [gather_foldl_get tasks run j hj order _ (by simp),
      if_pos (h j hj), List.get?_map]
  · have h1 : (gatherPerm tasks run order).get? j = none := by
      rw [List.get?_eq_none]
      unfold gatherPerm
      rw [gather_foldl_length]
      simp only [List.length_replicate]
      omega
    have h2 : (tasks.map (fun t => some (run t))).get? j = none := by
      rw [List.get?_eq_none, List.length_map]
      omega
    rw [h1, h2]

theorem zip_self_map {α β : Type} (l : List α) (f : α → β) :
    l.zip (l.map f) = l.map (fun a => (a, f a)) := by
  induction l with
  | nil => rfl
  | cons a l ih => simp [ih]

theorem build_enriched_tickets_eq (co : Int → Response) (tickets : List Ticket)
    (ticket_users : UserMap) :
    build_enriched_tickets co tickets ticket_users =
      (tickets.filter (fun t => t.id.isSome)).map
        (fun t => assembleOne ticket_users t
          (fetch_comments_with_users co (t.id.getD 0))) := by
  unfold build_enriched_tickets
  by_cases h0 : tickets = []
  · subst h0
    simp
  · rw [if_neg h0]
    by_cases hv : tickets.filter (fun t => t.id.isSome) = []
    · rw [hv]
      simp
    · simp only [hv, if_false]
      rw [zip_self_map, List.map_map]
      rfl

/-- C9: batch enrichment preserves input order — under any completion order
of the concurrent comment fetches that covers every task, the join's result
vector equals the positional map over the valid tickets, so composite `i`
is always built from valid ticket `i` and its own comment thread; tickets
lacking an id are skipped while the rest keep their relative order
(the output is exactly the id-filtered input list, mapped). -/
theorem C9_order_preservation (co : Int → Response) (tickets : List Ticket)
    (ticket_users : UserMap) (order : List Nat) (i : Nat)
    (horder : ∀ j, j < (tickets.filter (fun t => t.id.isSome)).length → j ∈ order) :
    gatherPerm (tickets.filter (fun t => t.id.isSome))
        (fun t => fetch_comments_with_users co (t.id.getD 0)) order =
      (tickets.filter (fun t => t.id.isSome)).map
        (fun t => some (fetch_comments_with_users co (t.id.getD 0))) ∧
    build_enriched_tickets co tickets ticket_users =
      (tickets.filter (fun t => t.id.isSome)).map
        (fun t => assembleOne ticket_users t
          (fetch_comments_with_users co (t.id.getD 0))) ∧
    (build_enriched_tickets co tickets ticket_users).length =
      (tickets.filter (fun t => t.id.isSome)).length ∧
    (build_enriched_tickets co tickets ticket_users).get? i =
      ((tickets.filter (fun t => t.id.isSome)).get? i).map
        (fun t => assembleOne ticket_users t
          (fetch_comments_with_users co (t.id.getD 0))) := by
  refine ⟨gatherPerm_eq_map _ _ order horder, build_enriched_tickets_eq co tickets ticket_users, ?_, ?_⟩
  · rw [build_enriched_tickets_eq, List.length_map]
  · rw [build_enriched_tickets_eq, List.get?_map]

/-- C9 witness: three tickets with the middle one lacking an id, and the
comment fetches completing in reverse order (`[1, 0]`): the composites come
back in input order with the id-less ticket skipped. -/
theorem C9_order_preservation_witness :
    (gatherPerm (ticketsT123.filter (fun t => t.id.isSome))
        (fun t => fetch_comments_with_users coSimple (t.id.getD 0)) [1, 0] =
      (ticketsT123.filter (fun t => t.id.isSome)).map
        (fun t => some (fetch_comments_with_users coSimple (t.id.getD 0))) ∧
     build_enriched_tickets coSimple ticketsT123 UserMap.empty =
      (ticketsT123.filter (fun t => t.id.isSome)).map
        (fun t => assembleOne UserMap.empty t
          (fetch_comments_with_users coSimple (t.id.getD 0))) ∧
     (build_enriched_tickets coSimple ticketsT123 UserMap.empty).length =
      (ticketsT123.filter (fun t => t.id.isSome)).length ∧
     (build_enriched_tickets coSimple ticketsT123 UserMap.empty).get? 1 =
      ((ticketsT123.filter (fun t => t.id.isSome)).get? 1).map
        (fun t => assembleOne UserMap.empty t
          (fetch_comments_with_users coSimple (t.id.getD 0)))) :=
  C9_order_preservation coSimple ticketsT123 UserMap.empty [1, 0] 1
    (by
      intro j hj
      have h2 : j < 2 := by simpa [ticketsT123] using hj
      interval_cases j <;> simp)

end ZendeskSDK
